import Mathlib

/-
Verification of the GPU sphere example (src/example/opengl_sphere.cpp).

The file embeds, in Lean:
  * the OpenCL kernel `tesselate_sphere` (lines 63-82 of the source): its
    per-work-item vertex formula and its buffer-index formula, the latter in
    the kernel's 32-bit unsigned (`uint`) arithmetic;
  * the host-side `tesselate_sphere` function and the `gpu_sphere_mapper`
    class (`Render`, `Initialize`, `GetBounds`, the constructor) as an
    explicit state machine over a record of the class members, producing a
    trace of the OpenGL/OpenCL calls each `Render` issues.

Device floating point is modelled as exact arithmetic in an arbitrary field,
with `cos`, `sin` and `pi` as uninterpreted operations; integer arithmetic is
modelled exactly, except the kernel's `uint` expressions, which reduce
modulo 2^32 as OpenCL `uint` arithmetic does.
-/

namespace OpenGLSphere

/-- The scalar operations of the device float type that the kernel uses,
over an arbitrary carrier `R`: `cos`, `sin` and the constant `M_PI_F` are
kept abstract, arithmetic comes from a `Field` instance on `R`. -/
structure ScalarOps (R : Type) where
  cos : R → R
  sin : R → R
  pi : R

/-- The OpenCL `float4` vector type. -/
structure Float4 (R : Type) where
  x : R
  y : R
  z : R
  w : R
  deriving DecidableEq

/-- Kernel line 72: `const float phi = phi_i * 2.f * M_PI_F / phi_slices;`. -/
def kernelPhi {R : Type} [Field R] (ops : ScalarOps R) (phi_slices phi_i : ℕ) : R :=
  (phi_i : R) * 2 * ops.pi / (phi_slices : R)

/-- Kernel line 73: `const float theta = theta_i * 2.f * M_PI_F / theta_slices;`. -/
def kernelTheta {R : Type} [Field R] (ops : ScalarOps R) (theta_slices theta_i : ℕ) : R :=
  (theta_i : R) * 2 * ops.pi / (theta_slices : R)

/-- Kernel lines 75-79: the `float4 v` the work-item `(phi_i, theta_i)` computes. -/
def kernelVertex {R : Type} [Field R] (ops : ScalarOps R) (radius : R)
    (phi_slices theta_slices phi_i theta_i : ℕ) : Float4 R :=
  { x := radius * ops.cos (kernelTheta ops theta_slices theta_i)
          * ops.cos (kernelPhi ops phi_slices phi_i)
    y := radius * ops.cos (kernelTheta ops theta_slices theta_i)
          * ops.sin (kernelPhi ops phi_slices phi_i)
    z := radius * ops.sin (kernelTheta ops theta_slices theta_i)
    w := 1 }

/-- Kernel line 81: the buffer index `phi_i*phi_slices+theta_i`, computed in
OpenCL `uint` (32-bit unsigned) arithmetic, which wraps modulo `2^32`. -/
def kernelIndex (phi_slices phi_i theta_i : ℕ) : ℕ :=
  (phi_i * phi_slices + theta_i) % 2 ^ 32

/-- The write the work-item `(phi_i, theta_i)` performs (line 81):
`vertex_buffer[phi_i*phi_slices+theta_i] = v`, as the pair (index, value). -/
def kernelWrite {R : Type} [Field R] (ops : ScalarOps R) (radius : R)
    (phi_slices theta_slices phi_i theta_i : ℕ) : ℕ × Float4 R :=
  (kernelIndex phi_slices phi_i theta_i,
   kernelVertex ops radius phi_slices theta_slices phi_i theta_i)

/-- The vertex as the spec words it:
`vertex = radius * (cos(theta)*cos(phi), cos(theta)*sin(phi), sin(theta), 1)`
with `phi = phi_i*2π/phi_slices` and `theta = theta_i*2π/theta_slices`.
(Refinement-side definition, written from the spec's words, to be compared
with `kernelVertex`.) -/
def specVertex {R : Type} [Field R] (ops : ScalarOps R) (radius : R)
    (phi_slices theta_slices phi_i theta_i : ℕ) : Float4 R :=
  { x := radius * (ops.cos ((theta_i : R) * (2 * ops.pi) / (theta_slices : R))
          * ops.cos ((phi_i : R) * (2 * ops.pi) / (phi_slices : R)))
    y := radius * (ops.cos ((theta_i : R) * (2 * ops.pi) / (theta_slices : R))
          * ops.sin ((phi_i : R) * (2 * ops.pi) / (phi_slices : R)))
    z := radius * ops.sin ((theta_i : R) * (2 * ops.pi) / (theta_slices : R))
    w := 1 }

/-- The index as the spec words it: `index = work_item.x * phi_slices + work_item.y`,
in unbounded integer arithmetic. (Refinement-side definition from the spec's words.) -/
def specIndex (phi_slices phi_i theta_i : ℕ) : ℕ :=
  phi_i * phi_slices + theta_i

/-- The two external conditions the example branches on: whether the default
compute device reports the `cl_khr_gl_sharing` extension (line 160) and whether
`program.build()` succeeds (line 88). -/
structure Env where
  supportsSharing : Bool
  buildSucceeds : Bool

/-- OpenGL primitive modes the example draws with (only `GL_POINTS`, line 146). -/
inductive GLPrim where
  | points
  deriving DecidableEq

/-- The OpenCL / OpenGL calls the example issues, in program order. -/
inductive Action where
  | loadExtension
  | defaultDevice
  | logNoSharing
  | createContext
  | createCommandQueue
  | getQueueContext
  | genBufferData (bytes : ℕ)
  | buildProgram
  | enqueueAcquireBuffer
  | enqueueNDRangeKernel (gx gy : ℕ)
  | enqueueReleaseBuffer
  | drawArrays (prim : GLPrim) (count : ℕ)
  deriving DecidableEq

/-- OpenCL errors raised on the two failure paths the model covers. -/
inductive CLError where
  | invalidCommandQueue
  | buildProgramFailure
  deriving DecidableEq

/-- The shared `compute::opengl_buffer` that `tesselate_sphere` returns,
recorded with the dispatch parameters that determine its device-resident
contents: in the exact-arithmetic model the kernel output is the pure function
`kernelWrite` of `(radius, phi_slices, theta_slices)` and the work-item, so
equal records mean bit-identical buffer contents (see `bufferWrites`). -/
structure SharedBufferData where
  radius : ℚ
  phi_slices : ℕ
  theta_slices : ℕ
  deriving DecidableEq

/-- The contents a dispatch leaves in the shared buffer, as the function from
work-items to their writes. -/
def bufferWrites (ops : ScalarOps ℚ) (d : SharedBufferData) : ℕ → ℕ → ℕ × Float4 ℚ :=
  fun phi_i theta_i => kernelWrite ops d.radius d.phi_slices d.theta_slices phi_i theta_i

/-- The member variables of `gpu_sphere_mapper` (lines 199-208). The two
handle-valued members `m_context` and `m_command_queue` are tracked by whether
they were ever assigned a created object (lines 174 and 177) — a
default-constructed handle is null. `m_vertex_count` is an uninitialized `int`
until `Render` first assigns it (line 131), hence an `Option`. -/
structure MapperState where
  m_radius : ℚ
  m_phi_slices : ℕ
  m_theta_slices : ℕ
  m_vertex_count : Option ℕ
  m_initialized : Bool
  m_tesselated : Bool
  m_context_created : Bool
  m_command_queue_created : Bool
  m_vertex_buffer : Option SharedBufferData
  deriving DecidableEq

/-- The `gpu_sphere_mapper` constructor (lines 190-197) with the three geometry
parameters explicit. -/
def mkMapper (radius : ℚ) (phi_slices theta_slices : ℕ) : MapperState :=
  { m_radius := radius
    m_phi_slices := phi_slices
    m_theta_slices := theta_slices
    m_vertex_count := none
    m_initialized := false
    m_tesselated := false
    m_context_created := false
    m_command_queue_created := false
    m_vertex_buffer := none }

/-- The constructor as written: `m_radius = 5.0f`, `m_phi_slices = 100`,
`m_theta_slices = 100` (lines 192-194). -/
def gpu_sphere_mapper_new : MapperState := mkMapper 5 100 100

/-- `gpu_sphere_mapper::Initialize` (lines 149-178): loads the vertex-buffer
extension, selects the default device, and — only if the device supports
`cl_khr_gl_sharing` — creates the shared context and the command queue; when
the device lacks sharing support it logs to `std::cerr` and returns early,
leaving `m_context` and `m_command_queue` default-constructed. -/
def Initialize (env : Env) (s : MapperState) : MapperState × List Action :=
  if env.supportsSharing then
    ({ s with m_context_created := true, m_command_queue_created := true },
     [.loadExtension, .defaultDevice, .createContext, .createCommandQueue])
  else
    (s, [.loadExtension, .defaultDevice, .logNoSharing])

/-- The host function `tesselate_sphere` (lines 40-110): reads the queue's
context, creates the OpenGL buffer of `sizeof(float) * 4 * vertex_count` bytes,
wraps it as a shared buffer, builds the kernel program, then enqueues acquire,
the 2D kernel dispatch over `(phi_slices, theta_slices)`, and release.

Modelled from the spec: the `boost::compute` wrappers this function calls are
headers of the repository that are not under `src/`; per the spec's error
design (§7, errors are surfaced to the caller rather than swallowed),
`queue.get_context()` on a command queue that was never created raises an
OpenCL error before anything is enqueued, and a failing `program.build()`
raises `BuildError` before any enqueue. -/
def tesselate_sphere (env : Env) (radius : ℚ) (phi_slices theta_slices : ℕ)
    (queueCreated : Bool) : Except CLError SharedBufferData × List Action :=
  if queueCreated then
    if env.buildSucceeds then
      (.ok { radius := radius, phi_slices := phi_slices, theta_slices := theta_slices },
       [.getQueueContext, .genBufferData (4 * 4 * (phi_slices * theta_slices)),
        .buildProgram, .enqueueAcquireBuffer,
        .enqueueNDRangeKernel phi_slices theta_slices, .enqueueReleaseBuffer])
    else
      (.error .buildProgramFailure,
       [.getQueueContext, .genBufferData (4 * 4 * (phi_slices * theta_slices)),
        .buildProgram])
  else
    (.error .invalidCommandQueue, [.getQueueContext])

/-- `gpu_sphere_mapper::Render` (lines 123-147): lazily initializes (setting
`m_initialized` unconditionally afterwards), lazily tesselates (assigning
`m_vertex_count` first, setting `m_tesselated` only after `tesselate_sphere`
returns), then binds the buffer and issues `glDrawArrays(GL_POINTS, 0,
m_vertex_count)`. A raised OpenCL error propagates out of `Render` (the
`Except.error` result); the member updates made before the raise persist. -/
def Render (env : Env) (s : MapperState) : Except CLError Unit × MapperState × List Action :=
  let ia :=
    if s.m_initialized then (s, ([] : List Action))
    else
      let ia0 := Initialize env s
      ({ ia0.1 with m_initialized := true }, ia0.2)
  let s1 := ia.1
  if s1.m_tesselated then
    (.ok (), s1, ia.2 ++ [.drawArrays .points (s1.m_vertex_count.getD 0)])
  else
    let s2 := { s1 with m_vertex_count := some (s1.m_phi_slices * s1.m_theta_slices) }
    let tr := tesselate_sphere env s2.m_radius s2.m_phi_slices s2.m_theta_slices
        s2.m_command_queue_created
    match tr.1 with
    | .error e => (.error e, s2, ia.2 ++ tr.2)
    | .ok buf =>
        let s3 := { s2 with m_vertex_buffer := some buf, m_tesselated := true }
        (.ok (), s3, ia.2 ++ tr.2 ++ [.drawArrays .points (s3.m_vertex_count.getD 0)])

/-- The mapper state after `n` `Render` calls (the render loop drives one call
per frame, single-threaded). -/
def stateAfter (env : Env) (s0 : MapperState) : ℕ → MapperState
  | 0 => s0
  | n + 1 => (Render env (stateAfter env s0 n)).2.1

/-- The calls the `(n+1)`-st `Render` issues. -/
def callTrace (env : Env) (s0 : MapperState) (n : ℕ) : List Action :=
  (Render env (stateAfter env s0 n)).2.2

/-- The outcome of the `(n+1)`-st `Render`: `.ok` when it returns normally,
`.error` when an OpenCL error escapes it. -/
def callResult (env : Env) (s0 : MapperState) (n : ℕ) : Except CLError Unit :=
  (Render env (stateAfter env s0 n)).1

/-- All calls issued by the first `n` `Render` calls, in order. -/
def allTrace (env : Env) (s0 : MapperState) : ℕ → List Action
  | 0 => []
  | n + 1 => allTrace env s0 n ++ callTrace env s0 n

/-- Whether an action is an operation enqueued on the command queue. -/
def isQueueOp : Action → Bool
  | .enqueueAcquireBuffer => true
  | .enqueueNDRangeKernel _ _ => true
  | .enqueueReleaseBuffer => true
  | _ => false

/-- The subsequence of a trace enqueued on the single command queue. -/
def queueOps (l : List Action) : List Action := l.filter isQueueOp

/-- Whether an action is a kernel dispatch. -/
def isDispatch : Action → Bool
  | .enqueueNDRangeKernel _ _ => true
  | _ => false

/-- The number of kernel dispatches in a trace. -/
def dispatchCount (l : List Action) : ℕ := (l.filter isDispatch).length

/-- Whether an action is a buffer creation. -/
def isBufferCreate : Action → Bool
  | .genBufferData _ => true
  | _ => false

/-- Whether an action is a draw call. -/
def isDraw : Action → Bool
  | .drawArrays _ _ => true
  | _ => false

/-- The acquire/release ownership automaton over a trace: `k` counts the
outstanding compute acquires; the result is the count after the trace, or
`none` as soon as the discipline is violated — an acquire while already
acquired, a release without a matching acquire, or a draw call issued while
the buffer is compute-acquired. -/
def ownAfter : ℕ → List Action → Option ℕ
  | k, [] => some k
  | k, .enqueueAcquireBuffer :: l => if k = 0 then ownAfter 1 l else none
  | k, .enqueueReleaseBuffer :: l => if k = 1 then ownAfter 0 l else none
  | k, .drawArrays _ _ :: l => if k = 0 then ownAfter k l else none
  | k, _ :: l => ownAfter k l

/-- Modelled from the spec: the spec's `GeometryState` enum (§4.5) as the
reading of the code's two lazy-init flags. -/
inductive GeometryStage where
  | Uninitialized
  | Initialized
  | Tesselated
  deriving DecidableEq

/-- The stage a mapper state is in. -/
def geometryStage (s : MapperState) : GeometryStage :=
  if s.m_tesselated then .Tesselated
  else if s.m_initialized then .Initialized
  else .Uninitialized

/-- The six values `GetBounds` stores into the static array (lines 183-185). -/
def GetBoundsValues (s : MapperState) : List ℚ :=
  [-s.m_radius, s.m_radius, -s.m_radius, s.m_radius, -s.m_radius, s.m_radius]

/-- The address `GetBounds` returns: there is exactly one such address, that of
the function-local `static double bounds[6]` (line 182), one object shared by
every instance and every call. -/
inductive BoundsPtr where
  | staticBounds
  deriving DecidableEq

/-- The mutable store backing the static array. -/
structure StaticStore where
  bounds : List ℚ
  deriving DecidableEq

/-- `gpu_sphere_mapper::GetBounds` (lines 180-187): overwrites the six entries
of the static array with this instance's values and returns its address. -/
def GetBounds (s : MapperState) (w : StaticStore) : BoundsPtr × StaticStore :=
  (.staticBounds, { bounds := GetBoundsValues s })

/-- Dereferencing a pointer obtained from `GetBounds` in the current store. -/
def readBounds (p : BoundsPtr) (w : StaticStore) : List ℚ :=
  match p with
  | .staticBounds => w.bounds

/-- The state a mapper reaches once tesselated, for parameters
`(radius, phi_slices, theta_slices)`. -/
def tessState (radius : ℚ) (phi_slices theta_slices : ℕ) : MapperState :=
  { m_radius := radius
    m_phi_slices := phi_slices
    m_theta_slices := theta_slices
    m_vertex_count := some (phi_slices * theta_slices)
    m_initialized := true
    m_tesselated := true
    m_context_created := true
    m_command_queue_created := true
    m_vertex_buffer := some { radius := radius, phi_slices := phi_slices,
                              theta_slices := theta_slices } }

/-- The trace of the first `Render` call on a fresh mapper when the device
supports sharing and the build succeeds. -/
def firstTrace (phi_slices theta_slices : ℕ) : List Action :=
  [.loadExtension, .defaultDevice, .createContext, .createCommandQueue,
   .getQueueContext, .genBufferData (4 * 4 * (phi_slices * theta_slices)),
   .buildProgram, .enqueueAcquireBuffer,
   .enqueueNDRangeKernel phi_slices theta_slices, .enqueueReleaseBuffer,
   .drawArrays .points (phi_slices * theta_slices)]

/-- The stuck state a fresh mapper reaches when the device lacks sharing
support: marked initialized, but with no context and no command queue. -/
def noSharingState (radius : ℚ) (phi_slices theta_slices : ℕ) : MapperState :=
  { m_radius := radius
    m_phi_slices := phi_slices
    m_theta_slices := theta_slices
    m_vertex_count := some (phi_slices * theta_slices)
    m_initialized := true
    m_tesselated := false
    m_context_created := false
    m_command_queue_created := false
    m_vertex_buffer := none }

/-- The state a fresh mapper reaches when initialization succeeds but the
kernel program build fails: initialized, never tesselated. -/
def buildFailState (radius : ℚ) (phi_slices theta_slices : ℕ) : MapperState :=
  { m_radius := radius
    m_phi_slices := phi_slices
    m_theta_slices := theta_slices
    m_vertex_count := some (phi_slices * theta_slices)
    m_initialized := true
    m_tesselated := false
    m_context_created := true
    m_command_queue_created := true
    m_vertex_buffer := none }

/-- Claim C1, as stated, is false on the code: the kernel's index expression is
computed in `uint` arithmetic, so at `phi_slices = 2^17`, `theta_slices = 1`,
work-item `(2^17 - 1, 0)` the write index wraps modulo `2^32` and is not
`phi_i*phi_slices + theta_i`. -/
theorem C1_counterexample :
    131071 < 131072 ∧ 0 < 1 ∧
      kernelIndex 131072 131071 0 ≠ specIndex 131072 131071 0 := by
  refine ⟨by decide, by decide, by decide⟩

/-- Claim C1 (amended): for every work-item `(phi_i, theta_i)` with
`phi_i < phi_slices` and `theta_i < theta_slices`, the kernel computes exactly
the vertex `radius * (cos(theta)*cos(phi), cos(theta)*sin(phi), sin(theta), 1)`
of the spec — with 4th component exactly `1` — and writes it at buffer index
`(phi_i*phi_slices + theta_i) mod 2^32` (the kernel's 32-bit unsigned
arithmetic); that index equals `phi_i*phi_slices + theta_i` whenever this value
is below `2^32`, in particular for the program's `100 × 100` dispatch. -/
theorem C1_kernel_write {R : Type} [Field R] (ops : ScalarOps R) (radius : R)
    (phi_slices theta_slices phi_i theta_i : ℕ)
    (hp : phi_i < phi_slices) (ht : theta_i < theta_slices) :
    kernelWrite ops radius phi_slices theta_slices phi_i theta_i
      = ((phi_i * phi_slices + theta_i) % 2 ^ 32,
         specVertex ops radius phi_slices theta_slices phi_i theta_i)
    ∧ (phi_i * phi_slices + theta_i < 2 ^ 32 →
        (kernelWrite ops radius phi_slices theta_slices phi_i theta_i).1
          = phi_i * phi_slices + theta_i) := by
  constructor
  · have hphi : kernelPhi ops phi_slices phi_i
        = (phi_i : R) * (2 * ops.pi) / (phi_slices : R) := by
      rw [kernelPhi, mul_assoc]
    have htheta : kernelTheta ops theta_slices theta_i
        = (theta_i : R) * (2 * ops.pi) / (theta_slices : R) := by
      rw [kernelTheta, mul_assoc]
    rw [kernelWrite, kernelIndex, kernelVertex, specVertex, hphi, htheta]
    refine congrArg _ ?_
    simp [mul_assoc]
  · intro hlt
    rw [kernelWrite, kernelIndex]
    exact Nat.mod_eq_of_lt hlt

/-- Witness for the amended claim C1 at a concrete input: carrier `ℚ`, an
explicit `ScalarOps` instance, radius `2`, slice counts `3 × 5`, work-item
`(2, 4)`. -/
theorem C1_kernel_write_witness :
    2 < 3 ∧ 4 < 5 ∧
      (kernelWrite ⟨fun q => q + 1, fun q => q * 3, 7⟩ (2 : ℚ) 3 5 2 4
        = ((2 * 3 + 4) % 2 ^ 32, specVertex ⟨fun q => q + 1, fun q => q * 3, 7⟩ (2 : ℚ) 3 5 2 4)
      ∧ (2 * 3 + 4 < 2 ^ 32 →
          (kernelWrite ⟨fun q => q + 1, fun q => q * 3, 7⟩ (2 : ℚ) 3 5 2 4).1
            = 2 * 3 + 4)) :=
  ⟨by decide, by decide,
   C1_kernel_write ⟨fun q => q + 1, fun q => q * 3, 7⟩ (2 : ℚ) 3 5 2 4
     (by decide) (by decide)⟩

/-- Claim C2, as stated, is false on the code: with
`phi_slices = theta_slices = 2^17` the index map is not a bijection, because the
kernel's `uint` index arithmetic wraps modulo `2^32`: the two distinct valid
work-items `(2^15, 0)` and `(0, 0)` write the same buffer index `0`. -/
theorem C2_counterexample :
    32768 < 131072 ∧ 0 < 131072 ∧
      kernelIndex 131072 32768 0 = kernelIndex 131072 0 0 ∧
      (32768 ≠ 0 ∨ (0 : ℕ) ≠ 0) := by
  refine ⟨by decide, by decide, by decide, Or.inl (by decide)⟩

/-- Claim C2 (amended): every kernel write index with `phi_slices = theta_slices = n`
lies within `[0, n*n)`; the index map is a bijection onto the buffer provided
additionally `n ≤ 2^16` (so that the `uint` index arithmetic cannot wrap — the
program's value is `n = 100`); and for some `phi_slices ≠ theta_slices` a valid
work-item's index is `≥ phi_slices*theta_slices` (an out-of-bounds write). -/
theorem C2_index_map :
    (∀ n a b : ℕ, a < n → b < n → kernelIndex n a b < n * n)
    ∧ (∀ n : ℕ, n ≤ 2 ^ 16 → ∀ a b c d : ℕ, a < n → b < n → c < n → d < n →
        kernelIndex n a b = kernelIndex n c d → a = c ∧ b = d)
    ∧ (∀ n : ℕ, n ≤ 2 ^ 16 → ∀ j : ℕ, j < n * n →
        ∃ a b : ℕ, a < n ∧ b < n ∧ kernelIndex n a b = j)
    ∧ (∃ p t : ℕ, p ≠ t ∧ ∃ a b : ℕ, a < p ∧ b < t ∧ p * t ≤ kernelIndex p a b) := by
  have key : ∀ n a b : ℕ, a < n → b < n → a * n + b < n * n := by
    intro n a b ha hb
    calc a * n + b < a * n + n := by omega
    _ = (a + 1) * n := by ring
    _ ≤ n * n := Nat.mul_le_mul_right n ha
  have nowrap : ∀ n a b : ℕ, n ≤ 2 ^ 16 → a < n → b < n →
      kernelIndex n a b = a * n + b := by
    intro n a b hn ha hb
    have h1 : a * n + b < n * n := key n a b ha hb
    have h2 : n * n ≤ 2 ^ 32 := by
      calc n * n ≤ 2 ^ 16 * 2 ^ 16 := Nat.mul_le_mul hn hn
      _ = 2 ^ 32 := by norm_num
    exact Nat.mod_eq_of_lt (lt_of_lt_of_le h1 h2)
  refine ⟨?_, ?_, ?_, ?_⟩
  · intro n a b ha hb
    exact lt_of_le_of_lt (Nat.mod_le _ _) (key n a b ha hb)
  · intro n hn a b c d ha hb hc hd h
    rw [nowrap n a b hn ha hb, nowrap n c d hn hc hd] at h
    have hb2 : (a * n + b) % n = b := by
      rw [mul_comm a n, Nat.mul_add_mod]
      exact Nat.mod_eq_of_lt hb
    have hd2 : (c * n + d) % n = d := by
      rw [mul_comm c n, Nat.mul_add_mod]
      exact Nat.mod_eq_of_lt hd
    have hbd : b = d := by rw [← hb2, ← hd2, h]
    have hn0 : 0 < n := lt_of_le_of_lt (Nat.zero_le a) ha
    have hac : a = c := by
      have h3 : a * n = c * n := by omega
      exact Nat.eq_of_mul_eq_mul_right hn0 h3
    exact ⟨hac, hbd⟩
  · intro n hn j hj
    have hn0 : 0 < n := by
      rcases Nat.eq_zero_or_pos n with h0 | h0
      · rw [h0] at hj; omega
      · exact h0
    refine ⟨j / n, j % n, ?_, Nat.mod_lt j hn0, ?_⟩
    · exact (Nat.div_lt_iff_lt_mul hn0).mpr hj
    · have hsum : j / n * n + j % n = j := by
        rw [mul_comm]
        exact Nat.div_add_mod j n
      rw [nowrap n (j / n) (j % n) hn ((Nat.div_lt_iff_lt_mul hn0).mpr hj)
        (Nat.mod_lt j hn0), hsum]
  · exact ⟨2, 1, by decide, 1, 0, by decide, by decide, by decide⟩

/-- The first `Render` call on a fresh mapper, device sharing supported and
build succeeding: initialization, tesselation and one draw, in one call. -/
theorem Render_fresh_good (r : ℚ) (p t : ℕ) :
    Render ⟨true, true⟩ (mkMapper r p t)
      = (.ok (), tessState r p t, firstTrace p t) := rfl

/-- A `Render` call on a tesselated mapper only issues the draw; the state is
unchanged. The environment is not consulted at all. -/
theorem Render_tessState (env : Env) (r : ℚ) (p t : ℕ) :
    Render env (tessState r p t)
      = (.ok (), tessState r p t, [.drawArrays .points (p * t)]) := rfl

/-- The first `Render` call when the device lacks sharing support: the error is
logged, the mapper is still marked initialized, the tesselation step runs on
the never-created command queue and the OpenCL error escapes. -/
theorem Render_fresh_noSharing (b : Bool) (r : ℚ) (p t : ℕ) :
    Render ⟨false, b⟩ (mkMapper r p t)
      = (.error .invalidCommandQueue, noSharingState r p t,
         [.loadExtension, .defaultDevice, .logNoSharing, .getQueueContext]) := rfl

/-- Later `Render` calls in the no-sharing environment: initialization is not
retried, the tesselation step is retried on the null queue and raises again. -/
theorem Render_noSharingState (b : Bool) (r : ℚ) (p t : ℕ) :
    Render ⟨false, b⟩ (noSharingState r p t)
      = (.error .invalidCommandQueue, noSharingState r p t, [.getQueueContext]) := rfl

/-- The first `Render` call when the kernel program build fails. -/
theorem Render_fresh_buildFail (r : ℚ) (p t : ℕ) :
    Render ⟨true, false⟩ (mkMapper r p t)
      = (.error .buildProgramFailure, buildFailState r p t,
         [.loadExtension, .defaultDevice, .createContext, .createCommandQueue,
          .getQueueContext, .genBufferData (4 * 4 * (p * t)), .buildProgram]) := rfl

/-- One step of `stateAfter`. -/
theorem stateAfter_succ (env : Env) (s0 : MapperState) (n : ℕ) :
    stateAfter env s0 (n + 1) = (Render env (stateAfter env s0 n)).2.1 := rfl

/-- One step of `allTrace`. -/
theorem allTrace_succ (env : Env) (s0 : MapperState) (n : ℕ) :
    allTrace env s0 (n + 1) = allTrace env s0 n ++ callTrace env s0 n := rfl

/-- After any positive number of `Render` calls in the good environment the
mapper sits in the tesselated state. -/
theorem stateAfter_good (r : ℚ) (p t n : ℕ) :
    stateAfter ⟨true, true⟩ (mkMapper r p t) (n + 1) = tessState r p t := by
  induction n with
  | zero => rw [stateAfter_succ]; rw [show stateAfter ⟨true, true⟩ (mkMapper r p t) 0
      = mkMapper r p t from rfl, Render_fresh_good]
  | succ n ih => rw [stateAfter_succ, ih, Render_tessState]

/-- The first call's trace in the good environment. -/
theorem callTrace_good_zero (r : ℚ) (p t : ℕ) :
    callTrace ⟨true, true⟩ (mkMapper r p t) 0 = firstTrace p t := by
  simp only [callTrace, stateAfter]; rw [Render_fresh_good]

/-- Every later call's trace in the good environment is one draw. -/
theorem callTrace_good_succ (r : ℚ) (p t n : ℕ) :
    callTrace ⟨true, true⟩ (mkMapper r p t) (n + 1) = [.drawArrays .points (p * t)] := by
  simp only [callTrace]; rw [stateAfter_good, Render_tessState]

/-- The full trace of `n + 1` calls in the good environment. -/
theorem allTrace_good (r : ℚ) (p t n : ℕ) :
    allTrace ⟨true, true⟩ (mkMapper r p t) (n + 1)
      = firstTrace p t ++ List.replicate n (.drawArrays .points (p * t)) := by
  induction n with
  | zero =>
      rw [allTrace_succ, show allTrace ⟨true, true⟩ (mkMapper r p t) 0 = [] from rfl,
        List.nil_append, callTrace_good_zero]
      rfl
  | succ n ih =>
      rw [allTrace_succ, ih, callTrace_good_succ, List.append_assoc,
        ← List.replicate_succ']

/-- After any positive number of `Render` calls in the no-sharing environment
the mapper sits in the stuck no-sharing state. -/
theorem stateAfter_noSharing (b : Bool) (r : ℚ) (p t n : ℕ) :
    stateAfter ⟨false, b⟩ (mkMapper r p t) (n + 1) = noSharingState r p t := by
  induction n with
  | zero => rw [stateAfter_succ, show stateAfter ⟨false, b⟩ (mkMapper r p t) 0
      = mkMapper r p t from rfl, Render_fresh_noSharing]
  | succ n ih => rw [stateAfter_succ, ih, Render_noSharingState]

/-- The ownership automaton distributes over trace concatenation. -/
theorem ownAfter_append (k : ℕ) (xs ys : List Action) :
    ownAfter k (xs ++ ys) = (ownAfter k xs).bind fun m => ownAfter m ys := by
  induction xs generalizing k with
  | nil => rfl
  | cons a l ih =>
      cases a <;> simp only [List.cons_append, ownAfter] <;>
        (try split) <;> simp [ih]

/-- Draws alone never violate the ownership discipline. -/
theorem ownAfter_replicate_draw (n count : ℕ) :
    ownAfter 0 (List.replicate n (.drawArrays .points count)) = some 0 := by
  induction n with
  | zero => rfl
  | succ n ih => simpa [List.replicate_succ, ownAfter] using ih

/-- Filtering a replicated action that the predicate rejects gives nothing. -/
theorem filter_replicate_none {α : Type} (q : α → Bool) (a : α) (h : q a = false)
    (n : ℕ) : (List.replicate n a).filter q = [] := by
  induction n with
  | zero => rfl
  | succ n ih => simp [List.replicate_succ, List.filter_cons, h, ih]

/-- Claim C3 states the spec's intent, but the code diverges at the failing
input (a device without `cl_khr_gl_sharing`, first `Render` call): the error is
indeed reported on the diagnostic channel and no draw is ever issued, but
`Render` marks itself initialized anyway, proceeds to the tesselation step on
the never-created command queue, and the resulting OpenCL error escapes every
`Render` call instead of being contained. -/
theorem C3_no_sharing_error_escapes :
    callResult ⟨false, true⟩ gpu_sphere_mapper_new 0 = .error .invalidCommandQueue
    ∧ Action.logNoSharing ∈ callTrace ⟨false, true⟩ gpu_sphere_mapper_new 0
    ∧ callResult ⟨false, true⟩ gpu_sphere_mapper_new 1 = .error .invalidCommandQueue
    ∧ (callTrace ⟨false, true⟩ gpu_sphere_mapper_new 0
        ++ callTrace ⟨false, true⟩ gpu_sphere_mapper_new 1).filter isDraw = [] := by
  exact ⟨rfl, by decide, rfl, rfl⟩

/-- Claim C4, as stated, is false on the code: the pair of consecutive `Render`
calls number 2 and 3 (parameters unchanged — they never change) performs zero
kernel dispatches, not exactly one, because the sphere is already tesselated. -/
theorem C4_counterexample :
    dispatchCount (callTrace ⟨true, true⟩ gpu_sphere_mapper_new 1
        ++ callTrace ⟨true, true⟩ gpu_sphere_mapper_new 2) = 0
    ∧ dispatchCount (callTrace ⟨true, true⟩ gpu_sphere_mapper_new 1
        ++ callTrace ⟨true, true⟩ gpu_sphere_mapper_new 2) ≠ 1 := by
  exact ⟨rfl, by decide⟩

/-- Claim C4 (amended): any two consecutive `Render` calls with unchanged
parameters leave the same shared-buffer contents after each call — the buffer
record of the dispatch parameters, which determines the contents as the pure
function `bufferWrites` — and together perform at most one kernel dispatch:
exactly one when the first call of the pair is the one that runs the
tesselation step (the first call overall), zero when the sphere is already
tesselated; the second call of the pair only issues the draw. -/
theorem C4_render_idempotent (r : ℚ) (p t n : ℕ) :
    (stateAfter ⟨true, true⟩ (mkMapper r p t) (n + 1)).m_vertex_buffer
        = some { radius := r, phi_slices := p, theta_slices := t }
    ∧ (stateAfter ⟨true, true⟩ (mkMapper r p t) (n + 2)).m_vertex_buffer
        = (stateAfter ⟨true, true⟩ (mkMapper r p t) (n + 1)).m_vertex_buffer
    ∧ dispatchCount (callTrace ⟨true, true⟩ (mkMapper r p t) n
        ++ callTrace ⟨true, true⟩ (mkMapper r p t) (n + 1))
        = (if n = 0 then 1 else 0)
    ∧ callTrace ⟨true, true⟩ (mkMapper r p t) (n + 1)
        = [.drawArrays .points (p * t)] := by
  refine ⟨?_, ?_, ?_, callTrace_good_succ r p t n⟩
  · rw [stateAfter_good]; rfl
  · rw [show n + 2 = (n + 1) + 1 from rfl, stateAfter_good, stateAfter_good]
  · cases n with
    | zero =>
        rw [callTrace_good_zero, callTrace_good_succ, if_pos rfl]
        rfl
    | succ m =>
        rw [callTrace_good_succ, callTrace_good_succ, if_neg (Nat.succ_ne_zero m)]
        rfl

/-- Claim C5: over any number of `Render` calls in the good environment, the
operations enqueued on the single command queue are exactly acquire, then the
kernel dispatch, then release, in that order; the ownership automaton accepts
the whole trace — acquire and release alternate strictly, at most one acquire
is outstanding, and every draw happens with zero outstanding acquires, i.e. the
release precedes any draw that references the buffer. -/
theorem C5_queue_order (r : ℚ) (p t n : ℕ) :
    ownAfter 0 (allTrace ⟨true, true⟩ (mkMapper r p t) n) = some 0
    ∧ queueOps (allTrace ⟨true, true⟩ (mkMapper r p t) n)
        = (if n = 0 then []
           else [.enqueueAcquireBuffer, .enqueueNDRangeKernel p t,
                 .enqueueReleaseBuffer]) := by
  cases n with
  | zero => exact ⟨rfl, rfl⟩
  | succ n =>
      rw [allTrace_good, if_neg (Nat.succ_ne_zero n)]
      constructor
      · rw [ownAfter_append, show ownAfter 0 (firstTrace p t) = some 0 from rfl]
        simpa using ownAfter_replicate_draw n (p * t)
      · rw [queueOps, List.filter_append]
        rw [show List.filter isQueueOp (firstTrace p t)
            = [.enqueueAcquireBuffer, .enqueueNDRangeKernel p t,
               .enqueueReleaseBuffer] from rfl]
        rw [filter_replicate_none isQueueOp (.drawArrays .points (p * t)) rfl,
          List.append_nil]

/-- Claim C6: `GetBounds` is a pure function of the radius alone — two states
agreeing on `m_radius` produce the same six values whatever their tesselation
state — and the values are the axis-aligned cube `[-radius, radius]^3` as
`[xmin, xmax, ymin, ymax, zmin, zmax]`; for radius 5 (the constructor default)
they are exactly `[-5, 5, -5, 5, -5, 5]`. -/
theorem C6_GetBounds_pure (s1 s2 : MapperState) (h : s1.m_radius = s2.m_radius) :
    GetBoundsValues s1 = GetBoundsValues s2
    ∧ GetBoundsValues s1
        = [-s1.m_radius, s1.m_radius, -s1.m_radius, s1.m_radius,
           -s1.m_radius, s1.m_radius]
    ∧ (s1.m_radius = 5 → GetBoundsValues s1 = [-5, 5, -5, 5, -5, 5])
    ∧ GetBoundsValues gpu_sphere_mapper_new = [-5, 5, -5, 5, -5, 5] := by
  refine ⟨?_, rfl, ?_, rfl⟩
  · rw [GetBoundsValues, GetBoundsValues, h]
  · intro h5
    rw [GetBoundsValues, h5]

/-- Witness for claim C6 at concrete states: the fresh mapper and the
tesselated state share radius 5 but differ in every lazy flag. -/
theorem C6_GetBounds_pure_witness :
    gpu_sphere_mapper_new.m_radius = (tessState 5 100 100).m_radius
    ∧ (GetBoundsValues gpu_sphere_mapper_new = GetBoundsValues (tessState 5 100 100)
      ∧ GetBoundsValues gpu_sphere_mapper_new
          = [-gpu_sphere_mapper_new.m_radius, gpu_sphere_mapper_new.m_radius,
             -gpu_sphere_mapper_new.m_radius, gpu_sphere_mapper_new.m_radius,
             -gpu_sphere_mapper_new.m_radius, gpu_sphere_mapper_new.m_radius]
      ∧ (gpu_sphere_mapper_new.m_radius = 5 →
          GetBoundsValues gpu_sphere_mapper_new = [-5, 5, -5, 5, -5, 5])
      ∧ GetBoundsValues gpu_sphere_mapper_new = [-5, 5, -5, 5, -5, 5]) :=
  ⟨rfl, C6_GetBounds_pure gpu_sphere_mapper_new (tessState 5 100 100) rfl⟩

/-- Claim C7: the shared buffer is created exactly once, with
`sizeof(float) * 4 * (phi_slices * theta_slices)` bytes — `phi_slices *
theta_slices` vertices of 4 float scalars — and every draw call ever issued
draws exactly `phi_slices * theta_slices` point-primitive items. -/
theorem C7_buffer_size_and_draw (r : ℚ) (p t n : ℕ) :
    (∀ bytes : ℕ,
        Action.genBufferData bytes ∈ allTrace ⟨true, true⟩ (mkMapper r p t) n →
        bytes = 4 * 4 * (p * t))
    ∧ (allTrace ⟨true, true⟩ (mkMapper r p t) n).filter isBufferCreate
        = (if n = 0 then [] else [.genBufferData (4 * 4 * (p * t))])
    ∧ (∀ prim count,
        Action.drawArrays prim count ∈ allTrace ⟨true, true⟩ (mkMapper r p t) n →
        prim = .points ∧ count = p * t) := by
  refine ⟨?_, ?_, ?_⟩
  · intro bytes hb
    cases n with
    | zero => simp [allTrace] at hb
    | succ m =>
        rw [allTrace_good] at hb
        simp only [List.mem_append, List.mem_replicate, firstTrace,
          List.mem_cons, List.not_mem_nil, or_false] at hb
        rcases hb with h | h
        · simp at h
          exact h
        · exact absurd h.2 (by simp)
  · cases n with
    | zero => rw [if_pos rfl]; rfl
    | succ m =>
        rw [allTrace_good, if_neg (Nat.succ_ne_zero m), List.filter_append]
        rw [show List.filter isBufferCreate (firstTrace p t)
            = [.genBufferData (4 * 4 * (p * t))] from rfl]
        rw [filter_replicate_none isBufferCreate (.drawArrays .points (p * t)) rfl,
          List.append_nil]
  · intro prim count hd
    cases n with
    | zero => simp [allTrace] at hd
    | succ m =>
        rw [allTrace_good] at hd
        simp only [List.mem_append, List.mem_replicate, firstTrace,
          List.mem_cons, List.not_mem_nil, or_false] at hd
        rcases hd with h | h
        · simp at h
          exact ⟨by cases prim; rfl, h⟩
        · have h2 := h.2
          simp at h2
          exact ⟨by cases prim; rfl, h2⟩

/-- Witness for claim C7 at a concrete input: the buffer creation of the first
call on the example's mapper (radius 5, 100 × 100). -/
theorem C7_buffer_size_and_draw_witness :
    Action.genBufferData 160000 ∈ allTrace ⟨true, true⟩ (mkMapper 5 100 100) 1
    ∧ (160000 : ℕ) = 4 * 4 * (100 * 100) :=
  ⟨by decide, (C7_buffer_size_and_draw 5 100 100 1).1 160000 (by decide)⟩

/-- Claim C8: whenever a `Render` call fails (an OpenCL error escapes it — a
failed build or a dispatch attempt on an invalid queue), the mapper is left
initialized but not tesselated, so the next `Render` call re-enters the
tesselation step (whose first action, reading the queue's context, appears in
the next call's trace). -/
theorem C8_failed_tesselation_retries (env : Env) (s : MapperState) (e : CLError)
    (h : (Render env s).1 = .error e) :
    (Render env s).2.1.m_tesselated = false
    ∧ (Render env s).2.1.m_initialized = true
    ∧ geometryStage (Render env s).2.1 = .Initialized
    ∧ Action.getQueueContext ∈ (Render env (Render env s).2.1).2.2 := by
  obtain ⟨sh, bd⟩ := env
  obtain ⟨r, p, t, vc, ini, tess, cx, q, vb⟩ := s
  cases ini <;> cases tess <;> cases sh <;> cases bd <;> cases q <;>
    simp_all [Render, Initialize, tesselate_sphere, geometryStage]

/-- Witness for claim C8 at a concrete input: the build-failure environment on
the example's fresh mapper. -/
theorem C8_failed_tesselation_retries_witness :
    (Render ⟨true, false⟩ gpu_sphere_mapper_new).1 = .error .buildProgramFailure
    ∧ ((Render ⟨true, false⟩ gpu_sphere_mapper_new).2.1.m_tesselated = false
      ∧ (Render ⟨true, false⟩ gpu_sphere_mapper_new).2.1.m_initialized = true
      ∧ geometryStage (Render ⟨true, false⟩ gpu_sphere_mapper_new).2.1 = .Initialized
      ∧ Action.getQueueContext
          ∈ (Render ⟨true, false⟩
              (Render ⟨true, false⟩ gpu_sphere_mapper_new).2.1).2.2) :=
  ⟨rfl, C8_failed_tesselation_retries ⟨true, false⟩ gpu_sphere_mapper_new
    .buildProgramFailure rfl⟩

/-- Claim C9: when the device lacks sharing support, the first `Render` call
still sets `m_initialized`, leaving the context and command queue
default-constructed; that same first call already proceeds to the tesselation
step on the default-constructed queue (it reads the queue's context and the
OpenCL error escapes), and no later `Render` call ever retries initialization
(no device selection or extension loading appears in any later trace). -/
theorem C9_initialized_set_unconditionally (b : Bool) (n : ℕ) :
    stateAfter ⟨false, b⟩ gpu_sphere_mapper_new (n + 1) = noSharingState 5 100 100
    ∧ (stateAfter ⟨false, b⟩ gpu_sphere_mapper_new (n + 1)).m_initialized = true
    ∧ (stateAfter ⟨false, b⟩ gpu_sphere_mapper_new (n + 1)).m_context_created = false
    ∧ (stateAfter ⟨false, b⟩ gpu_sphere_mapper_new (n + 1)).m_command_queue_created
        = false
    ∧ Action.getQueueContext ∈ callTrace ⟨false, b⟩ gpu_sphere_mapper_new 0
    ∧ callResult ⟨false, b⟩ gpu_sphere_mapper_new 0 = .error .invalidCommandQueue
    ∧ callTrace ⟨false, b⟩ gpu_sphere_mapper_new (n + 1) = [.getQueueContext]
    ∧ Action.defaultDevice ∉ callTrace ⟨false, b⟩ gpu_sphere_mapper_new (n + 1)
    ∧ Action.loadExtension ∉ callTrace ⟨false, b⟩ gpu_sphere_mapper_new (n + 1) := by
  have hstate : stateAfter ⟨false, b⟩ gpu_sphere_mapper_new (n + 1)
      = noSharingState 5 100 100 := stateAfter_noSharing b 5 100 100 n
  have htrace : callTrace ⟨false, b⟩ gpu_sphere_mapper_new (n + 1)
      = [.getQueueContext] := by
    rw [callTrace, stateAfter_succ, ← stateAfter_succ, hstate, Render_noSharingState]
  have htrace0 : callTrace ⟨false, b⟩ gpu_sphere_mapper_new 0
      = [.loadExtension, .defaultDevice, .logNoSharing, .getQueueContext] := by
    rw [callTrace, show stateAfter ⟨false, b⟩ gpu_sphere_mapper_new 0
      = mkMapper 5 100 100 from rfl, Render_fresh_noSharing]
  refine ⟨hstate, by rw [hstate]; rfl, by rw [hstate]; rfl, by rw [hstate]; rfl,
    by rw [htrace0]; decide, ?_, htrace, by rw [htrace]; decide,
    by rw [htrace]; decide⟩
  rw [callResult, show stateAfter ⟨false, b⟩ gpu_sphere_mapper_new 0
    = mkMapper 5 100 100 from rfl, Render_fresh_noSharing]

/-- Claim C10: `GetBounds` returns the address of the one function-local static
array, shared by all instances and calls: a second call on any instance returns
the same address and overwrites the six entries, so a pointer obtained from an
earlier call now reads the later instance's values — no longer the values of
the instance it came from, whenever the radii differ. -/
theorem C10_GetBounds_shared_static (s1 s2 : MapperState) (w : StaticStore)
    (h : s1.m_radius ≠ s2.m_radius) :
    (GetBounds s1 w).1 = (GetBounds s2 (GetBounds s1 w).2).1
    ∧ readBounds (GetBounds s1 w).1 (GetBounds s2 (GetBounds s1 w).2).2
        = GetBoundsValues s2
    ∧ readBounds (GetBounds s1 w).1 (GetBounds s2 (GetBounds s1 w).2).2
        ≠ GetBoundsValues s1 := by
  refine ⟨rfl, rfl, ?_⟩
  intro heq
  have h0 : -s2.m_radius = -s1.m_radius := by
    simpa [readBounds, GetBounds, GetBoundsValues] using
      congrArg (fun l => l.headI) heq
  exact h (neg_inj.mp h0).symm

/-- Witness for claim C10 at concrete instances: radius 5 (the example's
constructor) versus radius 7, starting from an empty store. -/
theorem C10_GetBounds_shared_static_witness :
    gpu_sphere_mapper_new.m_radius ≠ (mkMapper 7 100 100).m_radius
    ∧ ((GetBounds gpu_sphere_mapper_new ⟨[]⟩).1
        = (GetBounds (mkMapper 7 100 100) (GetBounds gpu_sphere_mapper_new ⟨[]⟩).2).1
      ∧ readBounds (GetBounds gpu_sphere_mapper_new ⟨[]⟩).1
          (GetBounds (mkMapper 7 100 100) (GetBounds gpu_sphere_mapper_new ⟨[]⟩).2).2
          = GetBoundsValues (mkMapper 7 100 100)
      ∧ readBounds (GetBounds gpu_sphere_mapper_new ⟨[]⟩).1
          (GetBounds (mkMapper 7 100 100) (GetBounds gpu_sphere_mapper_new ⟨[]⟩).2).2
          ≠ GetBoundsValues gpu_sphere_mapper_new) :=
  ⟨by decide, C10_GetBounds_shared_static gpu_sphere_mapper_new (mkMapper 7 100 100)
    ⟨[]⟩ (by decide)⟩

end OpenGLSphere
